import Mathlib

/-!
Shallow embedding of the softypm-mcp-server tool dispatcher and backend
client logic (TypeScript).  JavaScript numbers appearing in the modelled
code are always used as integers, so they are embedded as `Int`.
JavaScript truthiness on numbers (`0`, `null`/`undefined` are falsy) is
modelled explicitly where the source relies on it (`a || b`, `!x`).
Network calls are modelled by passing their result (`Except` for
fallible calls) as an explicit argument; an outcome constructor records
whether a backend write is issued.
-/

/-- JS truthiness of an optional number: `undefined`/`null` and `0` are falsy. -/
def truthy : Option Int → Bool
  | none => false
  | some n => n != 0

/-- JS `a || b` on optional numbers. -/
def jsOr (a b : Option Int) : Option Int :=
  if truthy a then a else b

/-- Project-id resolution used by getProjectInfo, createStory and listStories:
`const targetProjectId = project_id || this.currentProjectId;`
followed by `if (!targetProjectId) throw ...` (the `none` result stands for
the thrown no-project-context error, raised before any network call). -/
def resolveProjectId (explicitId ctx : Option Int) : Option Int :=
  let t := jsOr explicitId ctx
  if truthy t then t else none

/-- `Project` interface of softypm-client.ts. -/
structure Project where
  id : Int
  name : String
  description : Option String
  progress_percentage : Option Int
deriving Repr, DecidableEq

/-- `Story` interface of softypm-client.ts (status is declared `number`). -/
structure Story where
  id : Int
  name : String
  description : Option String
  status : Int
  estimate : Option Int
  epic_id : Option Int
  project_id : Int
  created_at : Option String
deriving Repr, DecidableEq

/-- `CreateStoryData` interface: the payload of the `POST /stories` write. -/
structure CreateStoryData where
  name : String
  description : Option String
  estimate : Option Int
  epic_id : Option Int
  project_id : Int
  status : Int
deriving Repr, DecidableEq

/-- Arguments of the create_story tool after JSON decoding, before schema
validation (`CreateStorySchema`). -/
structure CreateStoryArgs where
  name : String
  description : Option String
  estimate : Option Int
  epic_id : Option Int
  project_id : Option Int
deriving Repr, DecidableEq

/-- `CreateStorySchema`: name nonempty, estimate positive and at most 8 when
present; epic_id and project_id are arbitrary optional numbers. -/
def validateCreateStory (a : CreateStoryArgs) : Bool :=
  a.name.length ≥ 1 &&
  (match a.estimate with
   | none => true
   | some e => 0 < e && e ≤ 8)

/-- Outcome of the create_story tool.  `write` means the backend
`POST /stories` call is issued with the given payload; the other
constructors issue no write. -/
inductive CreateOutcome
  | noContext
  | tooLarge (name : String) (estimate : Int)
  | write (payload : CreateStoryData)
deriving Repr, DecidableEq

/-- createStory (dispatcher): resolve the project id (throwing the
no-context error if unresolvable), then apply the story-size rule
`if (estimate && estimate > 6)` returning the decomposition warning,
otherwise issue the backend write with `status: 1`. -/
def createStory (a : CreateStoryArgs) (ctx : Option Int) : CreateOutcome :=
  match resolveProjectId a.project_id ctx with
  | none => .noContext
  | some pid =>
      match a.estimate with
      | some e =>
          if e != 0 && e > 6 then .tooLarge a.name e
          else .write ⟨a.name, a.description, some e, a.epic_id, pid, 1⟩
      | none => .write ⟨a.name, a.description, none, a.epic_id, pid, 1⟩

/-- The status argument of update_story_status may arrive as a string or a
number (`z.enum(['1','3','5']).or(z.number().min(1).max(5))`). -/
inductive StatusArg
  | str (s : String)
  | num (n : Int)
deriving Repr, DecidableEq

/-- Schema check on the status argument: the string branch accepts exactly
"1", "3", "5"; the number branch accepts any number between 1 and 5. -/
def statusArgValid : StatusArg → Bool
  | .str s => s == "1" || s == "3" || s == "5"
  | .num n => 1 ≤ n && n ≤ 5

/-- Digit accumulator of the `parseInt` model: consume leading decimal
digits, stopping at the first non-digit. -/
def parseDecAux : List Char → Nat → Nat
  | [], acc => acc
  | c :: cs, acc =>
      if c.isDigit then parseDecAux cs (acc * 10 + (c.toNat - '0'.toNat))
      else acc

/-- JS `parseInt` restricted to the shapes it is applied to here (decimal
digit strings such as "1", "3", "5"): the value of the leading digit run,
`none` (NaN) when the string does not start with a digit. -/
def parseIntDec (s : String) : Option Int :=
  match s.data with
  | [] => none
  | c :: _ => if c.isDigit then some (parseDecAux s.data 0) else none

/-- `typeof status === 'string' ? parseInt(status) : status`. -/
def normalizeStatus : StatusArg → Int
  | .str s => (parseIntDec s).getD 0
  | .num n => n

/-- Combined boundary handling of the status argument: schema validation
followed by normalization to an integer; `none` is a validation error. -/
def checkStatusArg (a : StatusArg) : Option Int :=
  if statusArgValid a then some (normalizeStatus a) else none

/-- The `validTransitions` table of updateStoryStatus:
`{ 1: [3], 3: [5, 1], 5: [1, 3] }` (a JS object lookup, `undefined`
for any other key). -/
def validTransitions (s : Int) : Option (List Int) :=
  if s = 1 then some [3]
  else if s = 3 then some [5, 1]
  else if s = 5 then some [1, 3]
  else none

/-- Outcome of the workflow guard of update_story_status.  `write` means
the backend `POST /stories/{id}/status` call is issued; `warning` is the
non-raising invalid-transition response, carrying the current status, the
requested target and the allowed next statuses (`none` when the table has
no entry for the current status). -/
inductive UpdateOutcome
  | write (target : Int)
  | warning (current target : Int) (allowed : Option (List Int))
deriving Repr, DecidableEq

/-- updateStoryStatus workflow guard, applied after fetching the current
story: `if (!validTransitions[currentStatus]?.includes(targetStatus))`
return the warning, else perform the write. -/
def updateStoryStatus (current target : Int) : UpdateOutcome :=
  if target ∈ (validTransitions current).getD [] then .write target
  else .warning current target (validTransitions current)

/-- Outcome of setProjectContext: failure re-raises (context untouched),
success overwrites the context. -/
inductive SetCtxOutcome
  | failure (msg : String)
  | success (projectName : String) (projectId : Int) (progress : Int)
deriving Repr, DecidableEq

/-- setProjectContext: fetch the project; on success set
`this.currentProjectId = project_id` and confirm; on failure throw
(wrapping the message) and leave the context as it was.  Returns the new
context together with the outcome. -/
def setProjectContext (project_id : Int) (fetchResult : Except String Project)
    (ctx : Option Int) : Option Int × SetCtxOutcome :=
  match fetchResult with
  | .error e => (ctx, .failure ("Failed to set project context: " ++ e))
  | .ok proj => (some project_id, .success proj.name project_id (proj.progress_percentage.getD 0))

/-- Resolution step of getProjectInfo (`GetProjectSchema` has already
accepted an optional positive project_id): `noContext` stands for the
thrown error, issued before the project and story fetches. -/
inductive ResolveOutcome
  | noContext
  | proceed (projectId : Int)
deriving Repr, DecidableEq

/-- getProjectInfo, up to its network calls:
`const projectId = project_id || this.currentProjectId; if (!projectId) throw`. -/
def getProjectInfoResolution (project_id ctx : Option Int) : ResolveOutcome :=
  match resolveProjectId project_id ctx with
  | none => .noContext
  | some p => .proceed p

/-- `parseInt` on the status-filter strings "1", "3", "5". -/
def parseStatusFilter (s : String) : Int :=
  (parseIntDec s).getD 0

/-- listStories filtering: `if (status && status !== 'all')` keep only the
stories whose status equals the parsed filter, else keep all. -/
def filterStories (statusArg : Option String) (stories : List Story) : List Story :=
  match statusArg with
  | some s =>
      if s != "" && s != "all" then
        stories.filter (fun st => st.status == parseStatusFilter s)
      else stories
  | none => stories

/-- The filter named in the "No Stories Found" message: the parsed status
when a concrete filter was applied, nothing for "all"/absent. -/
def filterDesc (statusArg : Option String) : Option Int :=
  match statusArg with
  | some s => if s != "" && s != "all" then some (parseStatusFilter s) else none
  | none => none

/-- Outcome of list_my_stories.  `listing shown more` renders `shown` and,
when `more = some n`, appends the "... and n more" suffix. -/
inductive ListOutcome
  | noContext
  | noStories (filterUsed : Option Int)
  | listing (shown : List Story) (more : Option Nat)
deriving Repr, DecidableEq

/-- listStories: resolve the project id (error before any network call if
unresolvable), filter the fetched stories, return the no-stories message
on an empty filtered set, else render the first 10
(`filteredStories.slice(0, 10)`) with the omitted-count suffix
(`filteredStories.length > 10 ? ... and (length - 10) more : ''`). -/
def listStories (statusArg : Option String) (explicitId ctx : Option Int)
    (stories : List Story) : ListOutcome :=
  match resolveProjectId explicitId ctx with
  | none => .noContext
  | some _ =>
      let filtered := filterStories statusArg stories
      if filtered.length = 0 then .noStories (filterDesc statusArg)
      else
        .listing (filtered.take 10)
          (if filtered.length > 10 then some (filtered.length - 10) else none)

/-- The JSON body of the health endpoint response, as far as healthCheck
inspects it: the `success` field, absent or non-boolean modelled as `none`. -/
structure HealthData where
  success : Option Bool
deriving Repr, DecidableEq

/-- healthCheck: `response.data.success === true` on a successful call,
`false` on any error (the catch-all branch). -/
def healthCheck (r : Except String HealthData) : Bool :=
  match r with
  | .ok d => d.success == some true
  | .error _ => false

/-- The five transitions the table permits, as (current, target) pairs. -/
def allowedPairs : List (Int × Int) := [(1, 3), (3, 5), (3, 1), (5, 1), (5, 3)]

/-- The workflow guard issues the write exactly when the target appears in
the transition-table entry for the current status. -/
theorem write_iff_mem (s t : Int) :
    updateStoryStatus s t = UpdateOutcome.write t ↔
      t ∈ (validTransitions s).getD [] := by
  unfold updateStoryStatus
  split
  · simp [*]
  · simp [*]

/-- C1: for a fetched current status s in {1,3,5} and any requested target t,
update_story_status issues the backend status write iff (s,t) is one of
(1,3), (3,5), (3,1), (5,1), (5,3); every other pair yields the non-raising
warning carrying the current status and the allowed next statuses, and no
write. -/
theorem updateStoryStatus_transition_guard (s t : Int) (hs : s = 1 ∨ s = 3 ∨ s = 5) :
    (updateStoryStatus s t = UpdateOutcome.write t ↔ (s, t) ∈ allowedPairs)
  ∧ ((s, t) ∉ allowedPairs →
      ∃ allowed, validTransitions s = some allowed ∧
        updateStoryStatus s t = UpdateOutcome.warning s t (some allowed) ∧
        t ∉ allowed) := by
  rcases hs with h | h | h <;> subst h
  · refine ⟨?_, ?_⟩
    · rw [write_iff_mem]
      simp [validTransitions, allowedPairs]
    · intro hmem
      have ht : t ≠ 3 := by rintro rfl; exact hmem (by decide)
      exact ⟨[3], by decide, by simp [updateStoryStatus, validTransitions, ht],
        by simp [ht]⟩
  · refine ⟨?_, ?_⟩
    · rw [write_iff_mem]
      simp [validTransitions, allowedPairs]
    · intro hmem
      have ht5 : t ≠ 5 := by rintro rfl; exact hmem (by decide)
      have ht1 : t ≠ 1 := by rintro rfl; exact hmem (by decide)
      exact ⟨[5, 1], by decide, by simp [updateStoryStatus, validTransitions, ht5, ht1],
        by simp [ht5, ht1]⟩
  · refine ⟨?_, ?_⟩
    · rw [write_iff_mem]
      simp [validTransitions, allowedPairs]
    · intro hmem
      have ht1 : t ≠ 1 := by rintro rfl; exact hmem (by decide)
      have ht3 : t ≠ 3 := by rintro rfl; exact hmem (by decide)
      exact ⟨[1, 3], by decide, by simp [updateStoryStatus, validTransitions, ht1, ht3],
        by simp [ht1, ht3]⟩

/-- C1 witness: concrete instance at current status 1, target 5. -/
theorem updateStoryStatus_transition_guard_witness :
    (updateStoryStatus 1 5 = UpdateOutcome.write 5 ↔ ((1 : Int), (5 : Int)) ∈ allowedPairs)
  ∧ (((1 : Int), (5 : Int)) ∉ allowedPairs →
      ∃ allowed, validTransitions 1 = some allowed ∧
        updateStoryStatus 1 5 = UpdateOutcome.warning 1 5 (some allowed) ∧
        (5 : Int) ∉ allowed) :=
  updateStoryStatus_transition_guard 1 5 (Or.inl rfl)

/-- C9: when the fetched current status is not one of 1, 3, 5 the transition
table has no entry, so every requested target is rejected with the warning
(carrying no allowed targets) and the backend write is never issued. -/
theorem updateStoryStatus_unknown_current (s t : Int)
    (h1 : s ≠ 1) (h3 : s ≠ 3) (h5 : s ≠ 5) :
    updateStoryStatus s t = UpdateOutcome.warning s t none := by
  simp [updateStoryStatus, validTransitions, h1, h3, h5]

/-- C9 witness: current status 2, requested target 3. -/
theorem updateStoryStatus_unknown_current_witness :
    updateStoryStatus 2 3 = UpdateOutcome.warning 2 3 none :=
  updateStoryStatus_unknown_current 2 3 (by decide) (by decide) (by decide)

/-- C2: project-id resolution for info lookup, story creation and story
listing: an explicit (positive) project id is used; otherwise the session
context is used; with neither, the operation fails with the
no-project-context error, independently of any backend data. -/
theorem projectId_resolution_rule (p c : Int) (hp : 0 < p) (hc : 0 < c)
    (a : CreateStoryArgs) (s : Option String) (stories : List Story) :
    resolveProjectId (some p) (some c) = some p
  ∧ resolveProjectId (some p) none = some p
  ∧ resolveProjectId none (some c) = some c
  ∧ resolveProjectId none none = none
  ∧ (a.project_id = none → createStory a none = CreateOutcome.noContext)
  ∧ getProjectInfoResolution none none = ResolveOutcome.noContext
  ∧ listStories s none none stories = ListOutcome.noContext := by
  have hp' : p ≠ 0 := by omega
  have hc' : c ≠ 0 := by omega
  refine ⟨?_, ?_, ?_, ?_, ?_, ?_, ?_⟩
  · simp [resolveProjectId, jsOr, truthy, hp']
  · simp [resolveProjectId, jsOr, truthy, hp']
  · simp [resolveProjectId, jsOr, truthy, hc']
  · simp [resolveProjectId, jsOr, truthy]
  · intro h
    simp [createStory, resolveProjectId, jsOr, truthy, h]
  · simp [getProjectInfoResolution, resolveProjectId, jsOr, truthy]
  · simp [listStories, resolveProjectId, jsOr, truthy]

/-- C2 witness: explicit id 7, context 42, create_story args with no
project id, list filter absent, empty story list. -/
theorem projectId_resolution_rule_witness :
    resolveProjectId (some 7) (some 42) = some 7
  ∧ resolveProjectId (some 7) none = some 7
  ∧ resolveProjectId none (some 42) = some 42
  ∧ resolveProjectId none none = none
  ∧ ((⟨"Fix bug", none, none, none, none⟩ : CreateStoryArgs).project_id = none →
      createStory ⟨"Fix bug", none, none, none, none⟩ none = CreateOutcome.noContext)
  ∧ getProjectInfoResolution none none = ResolveOutcome.noContext
  ∧ listStories none none none [] = ListOutcome.noContext :=
  projectId_resolution_rule 7 42 (by decide) (by decide)
    ⟨"Fix bug", none, none, none, none⟩ none []

/-- C3: for validated create_story arguments on a resolvable project, an
estimate above 6 yields the decomposition warning and no backend write,
while estimates 6 and 1 reach the backend write. -/
theorem createStory_estimate_gate (a : CreateStoryArgs) (ctx : Option Int) (pid e : Int)
    (_hv : validateCreateStory a = true)
    (hres : resolveProjectId a.project_id ctx = some pid)
    (he : a.estimate = some e) :
    (e > 6 → createStory a ctx = CreateOutcome.tooLarge a.name e)
  ∧ (e = 6 → createStory a ctx =
      CreateOutcome.write ⟨a.name, a.description, some 6, a.epic_id, pid, 1⟩)
  ∧ (e = 1 → createStory a ctx =
      CreateOutcome.write ⟨a.name, a.description, some 1, a.epic_id, pid, 1⟩) := by
  refine ⟨?_, ?_, ?_⟩
  · intro h
    have hne : e ≠ 0 := by omega
    simp [createStory, hres, he, hne, h]
  · rintro rfl
    simp [createStory, hres, he]
  · rintro rfl
    simp [createStory, hres, he]

/-- C3 witness: name "Task", estimate 7, explicit project id 5, no context. -/
theorem createStory_estimate_gate_witness :
    ((7 : Int) > 6 →
      createStory ⟨"Task", none, some 7, none, some 5⟩ none = CreateOutcome.tooLarge "Task" 7)
  ∧ ((7 : Int) = 6 →
      createStory ⟨"Task", none, some 7, none, some 5⟩ none =
        CreateOutcome.write ⟨"Task", none, some 6, none, 5, 1⟩)
  ∧ ((7 : Int) = 1 →
      createStory ⟨"Task", none, some 7, none, some 5⟩ none =
        CreateOutcome.write ⟨"Task", none, some 1, none, 5, 1⟩) :=
  createStory_estimate_gate ⟨"Task", none, some 7, none, some 5⟩ none 5 7
    (by decide) (by decide) rfl

/-- C4: every story-creation input that reaches the backend write produces a
payload whose status is 1 (Backlog), whether or not an estimate is given. -/
theorem createStory_initial_status_backlog (a : CreateStoryArgs) (ctx : Option Int)
    (payload : CreateStoryData) (h : createStory a ctx = CreateOutcome.write payload) :
    payload.status = 1 := by
  rcases h1 : resolveProjectId a.project_id ctx with _ | pid
  · simp [createStory, h1] at h
  · rcases h2 : a.estimate with _ | e
    · simp [createStory, h1, h2] at h
      rw [← h]
    · by_cases h3 : e != 0 && e > 6
      · simp [createStory, h1, h2, h3] at h
      · simp [createStory, h1, h2, h3] at h
        rw [← h]

/-- C4 witness: a story created with no estimate has status 1. -/
theorem createStory_initial_status_backlog_witness :
    (⟨"A", none, none, none, 2, 1⟩ : CreateStoryData).status = 1 :=
  createStory_initial_status_backlog ⟨"A", none, none, none, some 2⟩ none
    ⟨"A", none, none, none, 2, 1⟩ (by decide)

/-- C5: set_project_context leaves the session context unchanged and raises
when the validating project fetch fails, and overwrites the context with
the given id exactly when the fetch succeeds. -/
theorem setProjectContext_guard (project_id : Int) (ctx : Option Int)
    (r : Except String Project) :
    ((∃ e, r = Except.error e) →
      (setProjectContext project_id r ctx).1 = ctx ∧
      ∃ m, (setProjectContext project_id r ctx).2 = SetCtxOutcome.failure m)
  ∧ (∀ proj, r = Except.ok proj →
      (setProjectContext project_id r ctx).1 = some project_id) := by
  constructor
  · rintro ⟨e, rfl⟩
    exact ⟨rfl, ⟨"Failed to set project context: " ++ e, rfl⟩⟩
  · rintro proj rfl
    rfl

/-- C5 witness: a failing fetch with prior context 4 keeps the context and
reports failure; a succeeding fetch overwrites the context with 9. -/
theorem setProjectContext_guard_witness :
    ((setProjectContext 9 (Except.error "Resource not found.") (some 4)).1 = some 4 ∧
      ∃ m, (setProjectContext 9 (Except.error "Resource not found.") (some 4)).2 =
        SetCtxOutcome.failure m)
  ∧ (setProjectContext 9 (Except.ok ⟨9, "P", none, some 50⟩) none).1 = some 9 :=
  ⟨(setProjectContext_guard 9 (some 4) (Except.error "Resource not found.")).1
      ⟨"Resource not found.", rfl⟩,
    (setProjectContext_guard 9 none (Except.ok ⟨9, "P", none, some 50⟩)).2
      ⟨9, "P", none, some 50⟩ rfl⟩

/-- C6 counterexample: the numeric status value 2 lies outside {1,3,5} yet
passes update_story_status argument validation and normalizes to 2, so
validation does not reject every value outside {1,3,5}. -/
theorem checkStatusArg_accepts_two :
    checkStatusArg (StatusArg.num 2) = some 2 ∧
    ¬((2 : Int) = 1 ∨ (2 : Int) = 3 ∨ (2 : Int) = 5) := by
  decide

/-- C6 amended: validation normalizes the status argument to one integer;
the string form is restricted to "1"/"3"/"5" (each mapping to its integer)
and the numeric form to the range [1,5], so numeric 2 and 4 pass validation
and are only rejected later by the transition guard, which never issues a
write for them. -/
theorem checkStatusArg_amended (a : StatusArg) :
    (∀ t, checkStatusArg a = some t →
      (1 ≤ t ∧ t ≤ 5) ∧ (∀ s, a = StatusArg.str s → (t = 1 ∨ t = 3 ∨ t = 5)))
  ∧ (∀ n, a = StatusArg.num n → (n < 1 ∨ 5 < n) → checkStatusArg a = none)
  ∧ (∀ t, checkStatusArg a = some t → (t = 2 ∨ t = 4) →
      ∀ c, updateStoryStatus c t ≠ UpdateOutcome.write t) := by
  refine ⟨?_, ?_, ?_⟩
  · intro t ht
    cases a with
    | str s =>
      by_cases h1 : s = "1"
      · subst h1
        have : t = 1 := by
          have h := ht
          rw [show checkStatusArg (StatusArg.str "1") = some 1 by decide] at h
          exact (Option.some_inj.mp h).symm
        refine ⟨by omega, fun _ _ => by omega⟩
      · by_cases h3 : s = "3"
        · subst h3
          have : t = 3 := by
            have h := ht
            rw [show checkStatusArg (StatusArg.str "3") = some 3 by decide] at h
            exact (Option.some_inj.mp h).symm
          refine ⟨by omega, fun _ _ => by omega⟩
        · by_cases h5 : s = "5"
          · subst h5
            have : t = 5 := by
              have h := ht
              rw [show checkStatusArg (StatusArg.str "5") = some 5 by decide] at h
              exact (Option.some_inj.mp h).symm
            refine ⟨by omega, fun _ _ => by omega⟩
          · simp [checkStatusArg, statusArgValid, h1, h3, h5] at ht
    | num n =>
      have hb : (1 ≤ n && n ≤ 5) = true := by
        by_contra hb
        simp [checkStatusArg, statusArgValid, hb] at ht
      have htn : t = n := by
        simp [checkStatusArg, statusArgValid, hb, normalizeStatus] at ht
        omega
      simp only [Bool.and_eq_true, decide_eq_true_eq] at hb
      exact ⟨by omega, fun s hs => by cases hs⟩
  · rintro n rfl hn
    have hb : ¬(1 ≤ n && n ≤ 5) = true := by
      simp only [Bool.and_eq_true, decide_eq_true_eq]
      omega
    simp [checkStatusArg, statusArgValid, hb]
  · intro t _ htv c hw
    have hmem : t ∈ (validTransitions c).getD [] := (write_iff_mem c t).mp hw
    revert hmem
    unfold validTransitions
    rcases htv with rfl | rfl <;> split_ifs <;> decide

/-- C6 amended witness: numeric 2 passes validation, normalizes to 2, and
the guard refuses to write it from current status 3. -/
theorem checkStatusArg_amended_witness :
    updateStoryStatus 3 2 ≠ UpdateOutcome.write 2 :=
  (checkStatusArg_amended (StatusArg.num 2)).2.2 2 (by decide) (Or.inl rfl) 3

/-- C8: the health probe returns a boolean; every failing outcome of the
underlying call becomes the value false, and it reports true only when the
call succeeded and the response body carried success = true. -/
theorem healthCheck_never_raises :
    (∀ e, healthCheck (Except.error e) = false)
  ∧ (∀ r, healthCheck r = true → ∃ d, r = Except.ok d ∧ d.success = some true) := by
  constructor
  · intro e
    rfl
  · intro r h
    cases r with
    | error e => simp [healthCheck] at h
    | ok d =>
      refine ⟨d, rfl, ?_⟩
      simpa [healthCheck] using h

/-- C8 witness: a connectivity failure yields false; a success body with
success = true is the only healthy case exhibited. -/
theorem healthCheck_never_raises_witness :
    healthCheck (Except.error "Unable to connect to SoftYPM.") = false ∧
    ∃ d, (Except.ok ⟨some true⟩ : Except String HealthData) = Except.ok d ∧
      d.success = some true :=
  ⟨healthCheck_never_raises.1 "Unable to connect to SoftYPM.",
    healthCheck_never_raises.2 (Except.ok ⟨some true⟩) rfl⟩

/-- C7: list_my_stories on a resolvable project filters the fetched stories
by the requested status (when a concrete filter is given), shows at most
the first 10 entries of the filtered set with an exact
(length - 10)-more suffix when it exceeds 10, and answers an empty filtered
set with the no-stories message carrying the filter used. -/
theorem listStories_render (statusArg : Option String) (eid ctx : Option Int) (p : Int)
    (stories : List Story) (hres : resolveProjectId eid ctx = some p) :
    (∀ s, statusArg = some s → s ≠ "" → s ≠ "all" →
      filterStories statusArg stories =
        stories.filter (fun st => st.status == parseStatusFilter s))
  ∧ (filterStories statusArg stories = [] →
      listStories statusArg eid ctx stories = ListOutcome.noStories (filterDesc statusArg))
  ∧ (∀ shown more, listStories statusArg eid ctx stories = ListOutcome.listing shown more →
      shown = (filterStories statusArg stories).take 10 ∧
      shown.length ≤ 10 ∧
      ((filterStories statusArg stories).length > 10 →
        more = some ((filterStories statusArg stories).length - 10)) ∧
      ((filterStories statusArg stories).length ≤ 10 → more = none)) := by
  refine ⟨?_, ?_, ?_⟩
  · rintro s rfl h1 h2
    simp [filterStories, h1, h2]
  · intro hemp
    simp [listStories, hres, hemp]
  · intro shown more hl
    rw [show listStories statusArg eid ctx stories =
          (let filtered := filterStories statusArg stories
           if filtered.length = 0 then ListOutcome.noStories (filterDesc statusArg)
           else ListOutcome.listing (filtered.take 10)
             (if filtered.length > 10 then some (filtered.length - 10) else none))
        by simp [listStories, hres]] at hl
    simp only [] at hl
    split at hl
    · cases hl
    · rw [ListOutcome.listing.injEq] at hl
      obtain ⟨rfl, rfl⟩ := hl
      refine ⟨rfl, ?_, ?_, ?_⟩
      · simp [List.length_take]
      · intro hgt
        simp [hgt]
      · intro hle
        have : ¬(filterStories statusArg stories).length > 10 := by omega
        simp [this]

/-- C7 witness: filter absent, project id 1 explicit, no stories fetched. -/
theorem listStories_render_witness :
    listStories none (some 1) none [] = ListOutcome.noStories (filterDesc none) :=
  (listStories_render none (some 1) none 1 [] (by decide)).2.1 rfl

/-- C10: an explicit project_id of 0 passes the create_story and
list_my_stories argument schemas (which do not constrain it) but is falsy,
so resolution treats it as absent: the session context is used when set,
and the no-project-context error is raised when it is not. -/
theorem zero_projectId_treated_absent (a : CreateStoryArgs) (ctx : Option Int)
    (s : Option String) (stories : List Story) :
    validateCreateStory { a with project_id := some 0 } =
      validateCreateStory { a with project_id := none }
  ∧ resolveProjectId (some 0) ctx = resolveProjectId none ctx
  ∧ createStory { a with project_id := some 0 } ctx =
      createStory { a with project_id := none } ctx
  ∧ listStories s (some 0) ctx stories = listStories s none ctx stories
  ∧ (ctx = none → createStory { a with project_id := some 0 } ctx = CreateOutcome.noContext)
  ∧ (∀ c, ctx = some c → c ≠ 0 → resolveProjectId (some 0) ctx = some c) := by
  have hres : resolveProjectId (some 0) ctx = resolveProjectId none ctx := by
    simp [resolveProjectId, jsOr, truthy]
  refine ⟨rfl, hres, ?_, ?_, ?_, ?_⟩
  · simp only [createStory, hres]
  · simp only [listStories, hres]
  · rintro rfl
    simp [createStory, resolveProjectId, jsOr, truthy]
  · rintro c rfl hc
    simp [resolveProjectId, jsOr, truthy, hc]

/-- C10 witness: create_story with project_id 0 and no context fails with
the no-context error; with context 3 it resolves to 3. -/
theorem zero_projectId_treated_absent_witness :
    createStory { (⟨"B", none, none, none, some 0⟩ : CreateStoryArgs) with
        project_id := some 0 } none = CreateOutcome.noContext ∧
    resolveProjectId (some 0) (some 3) = some 3 :=
  ⟨(zero_projectId_treated_absent ⟨"B", none, none, none, some 0⟩ none none []).2.2.2.2.1 rfl,
    (zero_projectId_treated_absent ⟨"B", none, none, none, some 0⟩ (some 3) none
      []).2.2.2.2.2 3 rfl (by decide)⟩
